import Mathlib

/-!
Verification of the authentication / admission-control layer of the
surrealmcp gateway: the bearer-token validator, the JWKS key-set cache, the
rate-limit key extractor and middleware pipeline of the HTTP server, and the
startup-restriction checks of the per-session tool service.  Definitions are
shallow embeddings of src/server/auth.rs, src/server/limit.rs,
src/server/start.rs and src/tools/mod.rs; calls into external crates
(serde, base64, josekit, jsonwebtoken crypto, reqwest, surrealdb) appear as
explicit oracle parameters, while everything the repository itself computes
is modelled concretely.
-/

namespace SurrealMcp

/-! ## String primitives mirroring the Rust str operations used -/

/-- Rust str::split(sep), collected: the result has one segment more than
the number of separators, so the empty input yields one empty segment. -/
def splitOnChar (sep : Char) : List Char → List (List Char)
  | [] => [[]]
  | c :: rest =>
    match splitOnChar sep rest with
    | [] => [[c]]
    | h :: t => if c = sep then [] :: h :: t else (c :: h) :: t

/-- Rust str::trim on the character list: drop leading and trailing
whitespace (restricted to ASCII whitespace, which covers every header and
token the validator meets). -/
def trimChars (cs : List Char) : List Char :=
  ((cs.dropWhile Char.isWhitespace).reverse.dropWhile Char.isWhitespace).reverse

/-- Rust str::trim on Lean strings. -/
def rustTrim (s : String) : String := ⟨trimChars s.data⟩

/-- Rust str::split(sep).collect() on Lean strings. -/
def rustSplit (sep : Char) (s : String) : List String :=
  (splitOnChar sep s.data).map (fun cs => ⟨cs⟩)

/-- Rust str::starts_with on Lean strings. -/
def rustStartsWith (s pre : String) : Bool := pre.data.isPrefixOf s.data

/-- Rust str::strip_prefix on Lean strings. -/
def rustStripPfx (pre s : String) : Option String :=
  if pre.data.isPrefixOf s.data then some ⟨s.data.drop pre.data.length⟩ else none

/-! ## Token data model (src/server/auth.rs) -/

/-- struct TokenClaims: claims carried by both JWE and JWT tokens. -/
structure TokenClaims where
  iss : String
  aud : Option String
  exp : Option Nat
  iat : Option Nat
  sub : Option String
  deriving Repr, DecidableEq

/-- struct JweHeader: the protected header of an encrypted token. -/
structure JweHeader where
  alg : String
  enc : String
  iss : String
  deriving Repr, DecidableEq

/-- The jsonwebtoken Header as consumed by validate_jwt_token: the signing
algorithm (kept as its string name) and the optional key id. -/
structure JwtHeader where
  alg : String
  kid : Option String
  deriving Repr, DecidableEq

/-- jsonwebtoken DecodingKey, abstracted to the constructor that built it. -/
inductive DecodingKey
  | rsaComponents (n e : String)
  | ecComponents (x y : String)
  | rsaPem (pem : String)
  | ecPem (pem : String)
  | secret (s : String)
  deriving Repr, DecidableEq

/-! ## Key-set cache (JwksManager, src/server/auth.rs) -/

/-- struct JwksKey: one JWK record from the key-set endpoint. -/
structure JwksKey where
  key_type : String
  key_id : String
  key_use : Option String
  algorithm : Option String
  modulus : Option String
  exponent : Option String
  x_coordinate : Option String
  y_coordinate : Option String
  curve : Option String
  deriving Repr, DecidableEq

/-- struct Jwks: the parsed key-set document. -/
structure Jwks where
  keys : List JwksKey
  deriving Repr, DecidableEq

/-- JWKS_CACHE_DURATION: one hour, in seconds. -/
def JWKS_CACHE_DURATION : Nat := 3600

/-- struct CachedJwks: the key-id map plus the absolute expiry instant. -/
structure CachedJwks where
  keys : List (String × JwksKey)
  expires_at : Nat
  deriving Repr, DecidableEq

/-- HashMap::insert: replace a present binding, otherwise append one. -/
def insertKey (store : List (String × JwksKey)) (k : String) (v : JwksKey) :
    List (String × JwksKey) :=
  if store.any (fun p => p.1 == k) then
    store.map (fun p => if p.1 == k then (k, v) else p)
  else store ++ [(k, v)]

/-- CachedJwks::new: build the map by inserting every fetched key, and set
the expiry to the fetch instant plus the fixed TTL. -/
def CachedJwks.new (keys : List JwksKey) (now : Nat) : CachedJwks :=
  ⟨keys.foldl (fun store key => insertKey store key.key_id key) [], now + JWKS_CACHE_DURATION⟩

/-- CachedJwks::is_expired. -/
def CachedJwks.is_expired (c : CachedJwks) (now : Nat) : Bool := now > c.expires_at

/-- CachedJwks::get_key. -/
def CachedJwks.get_key (c : CachedJwks) (kid : String) : Option JwksKey :=
  (c.keys.find? (fun p => p.1 == kid)).map Prod.snd

/-- Outcome of one network fetch of the key set (JwksManager::fetch_jwks):
the HTTP call, status check and JSON parse are outside the model, so the
fetch outcome is an input of the cache step. -/
abbrev FetchOutcome := Except String Jwks

/-- One call to JwksManager::get_jwks, as a state transition on the cache
slot.  Returns the result, the cache contents after the call, and whether a
network fetch was issued.  The whole sequence runs under the write lock, so
it is a single atomic step. -/
def get_jwks (cache : Option CachedJwks) (now : Nat) (fetch : FetchOutcome) :
    Except String CachedJwks × Option CachedJwks × Bool :=
  match cache with
  | some c =>
    if c.is_expired now = false then (.ok c, some c, false)
    else
      match fetch with
      | .error e => (.error e, some c, true)
      | .ok jwks =>
        let fresh := CachedJwks.new jwks.keys now
        (.ok fresh, some fresh, true)
  | none =>
    match fetch with
    | .error e => (.error e, none, true)
    | .ok jwks =>
      let fresh := CachedJwks.new jwks.keys now
      (.ok fresh, some fresh, true)

/-- Distinct error outcomes of JwksManager::get_decoding_key, one
constructor per error site in the source. -/
inductive JwksError
  | fetchFailed (msg : String)
  | keyNotFound (kid : String)
  | rsaMissingModulus
  | rsaMissingExponent
  | ecMissingX
  | ecMissingY
  | unsupportedKeyType (kty : String)
  | keyBuildFailed (msg : String)
  deriving Repr, DecidableEq

/-- The jsonwebtoken key constructors used by get_decoding_key; they parse
base64 key material inside the library and can fail there. -/
structure KeyOps where
  from_rsa_components : String → String → Except String DecodingKey
  from_ec_components : String → String → Except String DecodingKey

/-- One call to JwksManager::get_decoding_key: get the cached (or freshly
fetched) key set, look the key id up in it, and build a decoding key from
its components.  Threads the cache state and fetch flag of get_jwks. -/
def get_decoding_key (ops : KeyOps) (cache : Option CachedJwks) (now : Nat)
    (fetch : FetchOutcome) (kid : String) :
    Except JwksError DecodingKey × Option CachedJwks × Bool :=
  match get_jwks cache now fetch with
  | (.error e, st, fetched) => (.error (.fetchFailed e), st, fetched)
  | (.ok cached, st, fetched) =>
    match cached.get_key kid with
    | none => (.error (.keyNotFound kid), st, fetched)
    | some jwk =>
      let res : Except JwksError DecodingKey :=
        match jwk.key_type with
        | "RSA" =>
          match jwk.modulus with
          | none => .error .rsaMissingModulus
          | some n =>
            match jwk.exponent with
            | none => .error .rsaMissingExponent
            | some e =>
              match ops.from_rsa_components n e with
              | .error m => .error (.keyBuildFailed m)
              | .ok k => .ok k
        | "EC" =>
          match jwk.x_coordinate with
          | none => .error .ecMissingX
          | some x =>
            match jwk.y_coordinate with
            | none => .error .ecMissingY
            | some y =>
              match ops.from_ec_components x y with
              | .error m => .error (.keyBuildFailed m)
              | .ok k => .ok k
        | kty => .error (.unsupportedKeyType kty)
      (res, st, fetched)

/-! ## Token validator (src/server/auth.rs) -/

/-- struct TokenValidationConfig.  The JWKS manager is abstracted to the
key lookup it provides to the JWT path. -/
structure TokenValidationConfig where
  expected_issuer : String
  expected_audience : String
  jwt_public_key : Option String
  jwe_decryption_key : Option String
  validate_expiration : Bool
  validate_issued_at : Bool
  clock_skew_seconds : Nat
  jwks_manager : Option (String → Except String DecodingKey)

/-- The decoded JWT payload as the jsonwebtoken crate sees it before claim
validation: each spec claim is either present or absent. -/
structure JwtPayload where
  iss : Option String
  aud : Option String
  exp : Option Nat
  iat : Option Nat
  sub : Option String
  deriving Repr, DecidableEq

/-- The serde / base64 / crypto library calls made by the validator, one
field per external call site. -/
structure CryptoOps where
  decode_jwe_header : String → Except String JweHeader
  decrypt_jwe : String → String → Except String String
  parse_claims : String → Except String TokenClaims
  decode_jwt_header : String → Except String JwtHeader
  from_rsa_pem : String → Except String DecodingKey
  from_ec_pem : String → Except String DecodingKey
  verify_signature : DecodingKey → String → Bool
  parse_jwt_payload : String → Except String JwtPayload

/-- jsonwebtoken Validation as configured by validate_jwt_token. -/
structure JwtValidation where
  required_spec_claims : List String
  iss : List String
  aud : List String
  leeway : Nat
  validate_aud : Bool
  validate_exp : Bool
  deriving Repr, DecidableEq

/-- The Validation built at the top of validate_jwt_token: audience and
issuer pinned to the configured values, the five spec claims required, the
leeway set to the configured clock skew. -/
def mkValidation (config : TokenValidationConfig) : JwtValidation :=
  ⟨["iss", "aud", "exp", "iat", "sub"], [config.expected_issuer],
    [config.expected_audience], config.clock_skew_seconds, true, true⟩

/-- Presence test of the jsonwebtoken v9 required-claims loop.  The crate
matches only exp, sub, iss, aud and nbf against its claims view and
continues on any other required name, so a required name outside these five
(iat included) is skipped — modelled here as counting as present.  The
payload model carries no nbf slot, so a required nbf counts as absent. -/
def JwtPayload.hasClaim (p : JwtPayload) : String → Bool
  | "iss" => p.iss.isSome
  | "aud" => p.aud.isSome
  | "exp" => p.exp.isSome
  | "sub" => p.sub.isSome
  | "nbf" => false
  | _ => true

/-- Errors of jsonwebtoken decode. -/
inductive JwtError
  | invalidSignature
  | payloadInvalid (msg : String)
  | missingRequiredClaim (claim : String)
  | expiredSignature
  | invalidAudience
  | invalidIssuer
  deriving Repr, DecidableEq

/-- The claim-validation step of jsonwebtoken decode (modelled from the
crate, v9): required-claim presence first (only the checkable spec claims,
per JwtPayload.hasClaim), then expiry against now minus the leeway, then
audience membership, then issuer membership. -/
def jwtValidateClaims (p : JwtPayload) (v : JwtValidation) (now : Nat) :
    Except JwtError TokenClaims :=
  match v.required_spec_claims.find? (fun c => !(p.hasClaim c)) with
  | some missing => .error (.missingRequiredClaim missing)
  | none =>
    if v.validate_exp && p.exp.any (fun e => e < now - v.leeway) then
      .error .expiredSignature
    else if v.validate_aud && p.aud.any (fun a => !(v.aud.contains a)) then
      .error .invalidAudience
    else
      match p.iss with
      | some i =>
        if v.iss.contains i then .ok ⟨i, p.aud, p.exp, p.iat, p.sub⟩
        else .error .invalidIssuer
      | none => .error .invalidIssuer

/-- jsonwebtoken decode::<TokenClaims> (modelled from the crate): verify the
signature with the decoding key, deserialize the payload, then validate the
claims. -/
def jwtDecode (ops : CryptoOps) (key : DecodingKey) (token : String)
    (v : JwtValidation) (now : Nat) : Except JwtError TokenClaims :=
  if ops.verify_signature key token = false then .error .invalidSignature
  else
    match ops.parse_jwt_payload token with
    | .error e => .error (.payloadInvalid e)
    | .ok p => jwtValidateClaims p v now

/-- Distinct failure outcomes of the validator, one constructor per error
site in src/server/auth.rs. -/
inductive ValidationError
  | emptyToken
  | malformedToken (parts : Nat)
  | jweWrongPartCount
  | jweHeaderInvalid (msg : String)
  | unsupportedAlg (alg : String)
  | unsupportedEnc (enc : String)
  | decryptionFailed (msg : String)
  | claimsParseFailed (msg : String)
  | issuerMismatch (expected got : String)
  | expired (exp now : Nat)
  | issuedInFuture (iat now : Nat)
  | jwtHeaderInvalid (msg : String)
  | missingKeyId
  | keyLookupFailed (msg : String)
  | unsupportedJwtAlgorithm (alg : String)
  | keyBuildFailed (msg : String)
  | jwtDecodeFailed (e : JwtError)
  deriving Repr, DecidableEq

/-- The expiry block shared by both paths (validate_expiration enabled and
an exp claim present): the token is rejected when now exceeds exp plus the
configured clock skew. -/
def check_expiration (config : TokenValidationConfig) (expOpt : Option Nat)
    (now : Nat) : Except ValidationError Unit :=
  match config.validate_expiration, expOpt with
  | true, some exp =>
    if now > exp + config.clock_skew_seconds then .error (.expired exp now)
    else .ok ()
  | _, _ => .ok ()

/-- The issued-at block shared by both paths: the token is rejected when iat
exceeds now plus the configured clock skew. -/
def check_issued_at (config : TokenValidationConfig) (iatOpt : Option Nat)
    (now : Nat) : Except ValidationError Unit :=
  match config.validate_issued_at, iatOpt with
  | true, some iat =>
    if iat > now + config.clock_skew_seconds then .error (.issuedInFuture iat now)
    else .ok ()
  | _, _ => .ok ()

/-- validate_jwe_token: check the five-part shape, decode the header, reject
unsupported algorithm combinations, then either decrypt and fully validate
(decryption key configured) or validate the header issuer only and return a
claims object with only the issuer populated. -/
def validate_jwe_token (ops : CryptoOps) (token : String)
    (config : TokenValidationConfig) (now : Nat) :
    Except ValidationError TokenClaims :=
  let parts := rustSplit '.' token
  if parts.length ≠ 5 then .error .jweWrongPartCount
  else
    match ops.decode_jwe_header (parts.headD "") with
    | .error e => .error (.jweHeaderInvalid e)
    | .ok header =>
      if header.alg ≠ "dir" then .error (.unsupportedAlg header.alg)
      else if header.enc ≠ "A256GCM" then .error (.unsupportedEnc header.enc)
      else
        match config.jwe_decryption_key with
        | some decryption_key =>
          match ops.decrypt_jwe decryption_key token with
          | .error e => .error (.decryptionFailed e)
          | .ok payload =>
            match ops.parse_claims payload with
            | .error e => .error (.claimsParseFailed e)
            | .ok claims =>
              if claims.iss ≠ config.expected_issuer then
                .error (.issuerMismatch config.expected_issuer claims.iss)
              else
                match check_expiration config claims.exp now with
                | .error e => .error e
                | .ok _ =>
                  match check_issued_at config claims.iat now with
                  | .error e => .error e
                  | .ok _ => .ok claims
        | none =>
          if header.iss ≠ config.expected_issuer then
            .error (.issuerMismatch config.expected_issuer header.iss)
          else .ok ⟨header.iss, none, none, none, none⟩

/-- validate_jwt_token: decode the header, build the Validation, obtain the
decoding key (JWKS lookup when a manager is configured, else the static
public key, else the dummy test key), run jsonwebtoken decode, then re-check
expiry and issued-at with the configured clock skew. -/
def validate_jwt_token (ops : CryptoOps) (token : String)
    (config : TokenValidationConfig) (now : Nat) :
    Except ValidationError TokenClaims :=
  match ops.decode_jwt_header token with
  | .error e => .error (.jwtHeaderInvalid e)
  | .ok header =>
    let keyRes : Except ValidationError DecodingKey :=
      match config.jwks_manager with
      | some lookup =>
        match header.kid with
        | none => .error .missingKeyId
        | some kid =>
          match lookup kid with
          | .error e => .error (.keyLookupFailed e)
          | .ok k => .ok k
      | none =>
        match config.jwt_public_key with
        | some public_key =>
          if header.alg = "RS256" || header.alg = "RS384" || header.alg = "RS512" then
            match ops.from_rsa_pem public_key with
            | .error e => .error (.keyBuildFailed e)
            | .ok k => .ok k
          else if header.alg = "ES256" || header.alg = "ES384" then
            match ops.from_ec_pem public_key with
            | .error e => .error (.keyBuildFailed e)
            | .ok k => .ok k
          else .error (.unsupportedJwtAlgorithm header.alg)
        | none => .ok (.secret "dummy-key")
    match keyRes with
    | .error e => .error e
    | .ok key =>
      match jwtDecode ops key token (mkValidation config) now with
      | .error e => .error (.jwtDecodeFailed e)
      | .ok claims =>
        match check_expiration config claims.exp now with
        | .error e => .error e
        | .ok _ =>
          match check_issued_at config claims.iat now with
          | .error e => .error e
          | .ok _ => .ok claims

/-- validate_bearer_token: trim the token, reject the empty token, then
dispatch on the dot-segment count (five segments JWE, three JWT, anything
else malformed). -/
def validate_bearer_token (ops : CryptoOps) (token : String)
    (config : TokenValidationConfig) (now : Nat) :
    Except ValidationError TokenClaims :=
  let token := rustTrim token
  if token = "" then .error .emptyToken
  else
    match (rustSplit '.' token).length with
    | 5 => validate_jwe_token ops token config now
    | 3 => validate_jwt_token ops token config now
    | l => .error (.malformedToken l)

/-- Errors that report an expired token: the manual exp re-check of either
path, or the crate expiry error surfaced through decode. -/
def isExpiredError : ValidationError → Bool
  | .expired _ _ => true
  | .jwtDecodeFailed .expiredSignature => true
  | _ => false

/-- Errors that report a token issued in the future. -/
def isIssuedInFutureError : ValidationError → Bool
  | .issuedInFuture _ _ => true
  | _ => false

/-- Whether a validation outcome is a failure of the given error class. -/
def failsWith (r : Except ValidationError TokenClaims)
    (p : ValidationError → Bool) : Bool :=
  match r with
  | .error e => p e
  | .ok _ => false

/-! ## Rate-limit key extraction (src/server/limit.rs) and the HTTP
middleware pipeline (src/server/start.rs) -/

/-- The request signals read by the auth middleware and the rate-limit key
extractor: the path, the named headers (a present header is modelled as its
string value), and the transport peer address. -/
structure HttpRequest where
  path : String
  authorization : Option String
  x_forwarded_for : Option String
  x_real_ip : Option String
  x_client_ip : Option String
  cf_connecting_ip : Option String
  true_client_ip : Option String
  x_originating_ip : Option String
  x_remote_ip : Option String
  x_remote_addr : Option String
  peer_addr : Option String
  deriving Repr, DecidableEq

/-- RobustIpKeyExtractor::extract: bearer-token value (trimmed) first, then
the eight proxy headers in order (the X-Forwarded-For first entry trimmed),
then the socket peer address, then the fixed fallback key. -/
def robust_ip_key (req : HttpRequest) : String :=
  let bearer := (req.authorization.bind (fun h => rustStripPfx "Bearer " h)).map rustTrim
  let xff := (req.x_forwarded_for.bind (fun s => (rustSplit ',' s).head?)).map rustTrim
  let ip := ((((((((bearer.orElse (fun _ => xff)).orElse
    (fun _ => req.x_real_ip)).orElse
    (fun _ => req.x_client_ip)).orElse
    (fun _ => req.cf_connecting_ip)).orElse
    (fun _ => req.true_client_ip)).orElse
    (fun _ => req.x_originating_ip)).orElse
    (fun _ => req.x_remote_ip)).orElse
    (fun _ => req.x_remote_addr))
  match ip with
  | some ip => ip
  | none =>
    match req.peer_addr with
    | some addr => addr
    | none => "unknown"

/-- Responses the pipeline can produce. -/
inductive HttpResponse
  | ok (body : String)
  | unauthorized
  | tooManyRequests
  | notFound
  deriving Repr, DecidableEq

/-- Pipeline stages observable while a request is processed. -/
inductive Stage
  | tokenValidator
  | rateLimiter
  | handler (path : String)
  deriving Repr, DecidableEq

/-- A service: a request goes in; the stages that ran and the response come
out. -/
abbrev Service := HttpRequest → List Stage × HttpResponse

/-- require_bearer_auth as a middleware over a Service: the well-known and
health paths pass straight through; otherwise the bearer token is extracted
from the Authorization header and validated, a success continues to the
inner service and any missing or invalid token yields the 401 response. -/
def require_bearer_auth (ops : CryptoOps) (config : TokenValidationConfig)
    (now : Nat) (next : Service) : Service := fun req =>
  if rustStartsWith req.path "/.well-known/" || req.path = "/health" then next req
  else
    match req.authorization.bind (fun h => rustStripPfx "Bearer " h) with
    | some token =>
      match validate_bearer_token ops token config now with
      | .ok _ =>
        let inner := next req
        (.tokenValidator :: inner.1, inner.2)
      | .error _ => ([.tokenValidator], .unauthorized)
    | none => ([], .unauthorized)

/-- The governor rate-limit layer (create_rate_limit_layer): the bucket
decision for the extracted key is abstracted as the allow predicate (the
bucket state lives outside the model); an over-capacity request gets the 429
response produced by the configured error handler. -/
def rate_limit_layer (allow : String → Bool) (next : Service) : Service := fun req =>
  if allow (robust_ip_key req) then
    let inner := next req
    (.rateLimiter :: inner.1, inner.2)
  else ([.rateLimiter], .tooManyRequests)

/-- TraceLayer: request and response logging only, no effect on the
pipeline. -/
def trace_layer (next : Service) : Service := next

/-- The routes of start_http_server: the nested well-known service (with the
oauth-protected-resource route), the nested MCP service, and the health
route; anything else falls through to the 404 fallback. -/
def inner_router : Service := fun req =>
  if rustStartsWith req.path "/.well-known" then
    if req.path = "/.well-known/oauth-protected-resource" then
      ([.handler req.path], .ok "auth-server-metadata")
    else ([.handler req.path], .notFound)
  else if rustStartsWith req.path "/mcp" then
    ([.handler req.path], .ok "mcp")
  else if req.path = "/health" then
    ([.handler req.path], .ok "OK")
  else ([], .notFound)

/-- Router::layer in axum: the layer wraps the already-built service, so the
layer added last is outermost and processes the request first. -/
def layer (l : Service → Service) (inner : Service) : Service := l inner

/-- The router assembly of start_http_server: routes, then
.layer(trace_layer), then .layer(rate_limit_layer), then — unless auth is
disabled — .layer(require_bearer_auth). -/
def build_app (ops : CryptoOps) (config : TokenValidationConfig) (now : Nat)
    (allow : String → Bool) (auth_disabled : Bool) : Service :=
  let router := layer (rate_limit_layer allow) (layer trace_layer inner_router)
  if auth_disabled then router
  else layer (require_bearer_auth ops config now) router

/-! ## Session startup-restriction checks (src/tools/mod.rs) -/

/-- The SurrealService fields consulted by the restriction checks: the
startup-configured endpoint, namespace, database and credentials (the field
named namespace in the source is ns here, namespace being reserved). -/
structure SurrealService where
  endpoint : Option String
  ns : Option String
  database : Option String
  user : Option String
  pass : Option String
  deriving Repr, DecidableEq

/-- struct ConnectParams: the caller-supplied connect request. -/
structure ConnectParams where
  endpoint : String
  ns : Option String
  database : Option String
  username : Option String
  password : Option String
  deriving Repr, DecidableEq

/-- A live downstream connection handle, recorded with the parameters
db::create_client_connection was called with. -/
structure DbConn where
  endpoint : String
  user : Option String
  pass : Option String
  ns : Option String
  db : Option String
  deriving Repr, DecidableEq

/-- Distinct error outcomes of the two tools, one constructor per
McpError site. -/
inductive ToolError
  | endpointRestricted (requested configured : String)
  | namespaceRestricted (requested configured : String)
  | databaseRestricted (requested configured : String)
  | connectFailed (endpoint msg : String)
  | notConnected
  | useNsFailed (ns msg : String)
  deriving Repr, DecidableEq

/-- SurrealService::connect_endpoint: reject an endpoint, namespace or
database differing from a startup-configured restriction; otherwise fall
back to the configured values for anything the caller omitted and create a
new connection, replacing the session handle on success and leaving it
untouched on any failure.  The network connection itself is the create
argument. -/
def connect_endpoint (svc : SurrealService) (conn : Option DbConn)
    (p : ConnectParams)
    (create : String → Option String → Option String → Option String →
      Option String → Except String DbConn) :
    Except ToolError String × Option DbConn :=
  if svc.endpoint.any (fun c => p.endpoint != c) then
    (.error (.endpointRestricted p.endpoint (svc.endpoint.getD "")), conn)
  else if svc.ns.any (fun c => p.ns.any (fun n => n != c)) then
    (.error (.namespaceRestricted (p.ns.getD "") (svc.ns.getD "")), conn)
  else if svc.database.any (fun c => p.database.any (fun d => d != c)) then
    (.error (.databaseRestricted (p.database.getD "") (svc.database.getD "")), conn)
  else
    let ns := p.ns.orElse (fun _ => svc.ns)
    let db := p.database.orElse (fun _ => svc.database)
    let user := p.username.orElse (fun _ => svc.user)
    let pass := p.password.orElse (fun _ => svc.pass)
    match create p.endpoint user pass ns db with
    | .ok inst =>
      (.ok ("Successfully connected to endpoint " ++ p.endpoint), some inst)
    | .error e => (.error (.connectFailed p.endpoint e), conn)

/-- SurrealService::use_namespace: reject a namespace differing from the
startup-configured restriction; otherwise require a live connection and run
USE NS on it (the database call is the use_ns argument). -/
def use_namespace (svc : SurrealService) (conn : Option DbConn) (ns : String)
    (use_ns : DbConn → String → Except String Unit) :
    Except ToolError String × Option DbConn :=
  if svc.ns.any (fun c => ns != c) then
    (.error (.namespaceRestricted ns (svc.ns.getD "")), conn)
  else
    match conn with
    | some db =>
      match use_ns db ns with
      | .ok _ => (.ok ("Successfully switched to namespace " ++ ns), some db)
      | .error e => (.error (.useNsFailed ns e), some db)
    | none => (.error .notConnected, conn)

/-! ## Concrete instances used to instantiate the theorems -/

/-- A concrete crypto oracle whose calls all succeed with fixed results. -/
def sampleOps : CryptoOps :=
  ⟨fun _ => .ok ⟨"dir", "A256GCM", "iss0"⟩,
   fun _ _ => .ok "payload",
   fun _ => .ok ⟨"iss0", none, some 100, some 50, none⟩,
   fun _ => .ok ⟨"RS256", some "kid0"⟩,
   fun s => .ok (.rsaPem s),
   fun s => .ok (.ecPem s),
   fun _ _ => true,
   fun _ => .ok ⟨some "iss0", some "aud0", some 100, some 50, some "sub0"⟩⟩

/-- A concrete validation configuration with no decryption key and no JWKS
manager. -/
def sampleConfig : TokenValidationConfig :=
  ⟨"iss0", "aud0", none, none, true, true, 300, none⟩

/-- Concrete key-material constructors that always succeed. -/
def sampleKeyOps : KeyOps :=
  ⟨fun n e => .ok (.rsaComponents n e), fun x y => .ok (.ecComponents x y)⟩

/-! ## Claims -/

/-- Claim C1: validate_bearer_token first trims the token; an empty trimmed token
fails with the empty-token error; otherwise a five-segment token takes the
encrypted (JWE) path, a three-segment token takes the signed (JWT) path,
and any other segment count fails with the malformed-token error. -/
theorem bearer_token_classification (ops : CryptoOps)
    (config : TokenValidationConfig) (now : Nat) (token : String) :
    (rustTrim token = "" →
      validate_bearer_token ops token config now = .error .emptyToken) ∧
    (rustTrim token ≠ "" →
      ((rustSplit '.' (rustTrim token)).length = 5 →
        validate_bearer_token ops token config now
          = validate_jwe_token ops (rustTrim token) config now) ∧
      ((rustSplit '.' (rustTrim token)).length = 3 →
        validate_bearer_token ops token config now
          = validate_jwt_token ops (rustTrim token) config now) ∧
      ((rustSplit '.' (rustTrim token)).length ≠ 3 →
        (rustSplit '.' (rustTrim token)).length ≠ 5 →
        validate_bearer_token ops token config now
          = .error (.malformedToken (rustSplit '.' (rustTrim token)).length))) := by
  refine ⟨fun h => by simp [validate_bearer_token, h], fun h => ⟨?_, ?_, ?_⟩⟩
  · intro h5
    simp [validate_bearer_token, h, h5]
  · intro h3
    simp [validate_bearer_token, h, h3]
  · intro h3 h5
    rcases hl : (rustSplit '.' (rustTrim token)).length with _|_|_|_|_|_|m <;>
      simp_all [validate_bearer_token]

/-- Witness for bearer_token_classification: a four-segment token with
surrounding whitespace is trimmed and rejected as malformed. -/
theorem bearer_token_classification_witness :
    validate_bearer_token sampleOps " a.b.c.d " sampleConfig 7
      = .error (.malformedToken 4) := by
  have h := bearer_token_classification sampleOps sampleConfig 7 " a.b.c.d "
  have h2 := (h.2 (by decide)).2.2 (by decide) (by decide)
  have h4 : (rustSplit '.' (rustTrim " a.b.c.d ")).length = 4 := by decide
  rw [h4] at h2
  exact h2

/-- Claim C5: for a five-segment token whose header declares the supported
dir with A256GCM combination, with no decryption key configured, validation
succeeds exactly when the header issuer equals the configured issuer, the
returned claims carry only the issuer (audience, expiry, issued-at and
subject all absent), and neither expiry nor audience is examined. -/
theorem jwe_header_only_validation (ops : CryptoOps)
    (config : TokenValidationConfig) (now : Nat) (token : String)
    (hdr : JweHeader)
    (hparts : (rustSplit '.' token).length = 5)
    (hkey : config.jwe_decryption_key = none)
    (hhdr : ops.decode_jwe_header ((rustSplit '.' token).headD "") = .ok hdr)
    (halg : hdr.alg = "dir") (henc : hdr.enc = "A256GCM") :
    (hdr.iss = config.expected_issuer →
      validate_jwe_token ops token config now
        = .ok ⟨hdr.iss, none, none, none, none⟩) ∧
    (hdr.iss ≠ config.expected_issuer →
      validate_jwe_token ops token config now
        = .error (.issuerMismatch config.expected_issuer hdr.iss)) := by
  simp only [List.headD_eq_head?] at hhdr
  constructor <;> intro hiss <;>
    simp [validate_jwe_token, hparts, hhdr, halg, henc, hkey, hiss]

/-- Witness for jwe_header_only_validation: the matching-issuer case at a
concrete token, succeeding with only the issuer populated. -/
theorem jwe_header_only_validation_witness :
    validate_jwe_token sampleOps "h.a.b.c.d" sampleConfig 3
      = .ok ⟨"iss0", none, none, none, none⟩ := by
  have h := jwe_header_only_validation sampleOps sampleConfig 3 "h.a.b.c.d"
    ⟨"dir", "A256GCM", "iss0"⟩ (by decide) rfl rfl rfl rfl
  exact h.1 rfl

/-- Claim C7: when the key-set fetch fails the error is surfaced to the caller and
the cache slot is exactly what it was before the call; a fresh entry is not
even refetched; and the slot after any call is either the old entry or the
fully-built new one — never a torn half-written entry. -/
theorem jwks_fetch_failure_preserves_cache (cache : Option CachedJwks)
    (now : Nat) (msg : String) :
    (get_jwks cache now (.error msg)).2.1 = cache ∧
    ((cache = none ∨ ∃ c, cache = some c ∧ c.is_expired now = true) →
      get_jwks cache now (.error msg) = (.error msg, cache, true)) ∧
    (∀ c, cache = some c → c.is_expired now = false →
      get_jwks cache now (.error msg) = (.ok c, some c, false)) ∧
    (∀ jwks, (get_jwks cache now (.ok jwks)).2.1 = cache ∨
      (get_jwks cache now (.ok jwks)).2.1 = some (CachedJwks.new jwks.keys now)) := by
  refine ⟨?_, ?_, ?_, ?_⟩
  · cases cache with
    | none => rfl
    | some c => rcases hb : c.is_expired now <;> simp [get_jwks, hb]
  · rintro (hc | ⟨c, hc, hexp⟩)
    · subst hc
      rfl
    · subst hc
      simp [get_jwks, hexp]
  · intro c hc hfresh
    subst hc
    simp [get_jwks, hfresh]
  · intro jwks
    cases cache with
    | none => right; rfl
    | some c => rcases hb : c.is_expired now <;> simp [get_jwks, hb]

/-- Witness for jwks_fetch_failure_preserves_cache: a failed refresh of an
expired entry surfaces the error and keeps the old entry untouched. -/
theorem jwks_fetch_failure_preserves_cache_witness :
    get_jwks (some ⟨[], 10⟩) 100 (.error "boom")
      = (.error "boom", some ⟨[], 10⟩, true) := by
  have h := jwks_fetch_failure_preserves_cache (some ⟨[], 10⟩) 100 "boom"
  exact h.2.1 (Or.inr ⟨⟨[], 10⟩, rfl, by decide⟩)

/-- Claim C6: a successful fetch populates the cache, and a second lookup within
the TTL answers from the cache without fetching (so two lookups in the
window issue at most one fetch in total); a lookup on an expired entry
issues exactly one fresh fetch before answering; and an unknown key id on a
present, fresh entry yields the not-found error with no refetch and no
state change. -/
theorem jwks_cache_ttl (ops : KeyOps) (t1 t2 now : Nat) (jwks : Jwks)
    (f2 f : FetchOutcome) (c : CachedJwks) (kid : String) :
    ((get_jwks none t1 (.ok jwks)).2.2 = true ∧
      (t2 ≤ t1 + JWKS_CACHE_DURATION →
        get_jwks (get_jwks none t1 (.ok jwks)).2.1 t2 f2
          = (.ok (CachedJwks.new jwks.keys t1),
             (get_jwks none t1 (.ok jwks)).2.1, false))) ∧
    (c.is_expired now = true →
      (get_jwks (some c) now f).2.2 = true ∧
      (f = .ok jwks →
        get_jwks (some c) now f
          = (.ok (CachedJwks.new jwks.keys now),
             some (CachedJwks.new jwks.keys now), true))) ∧
    (c.is_expired now = false → c.get_key kid = none →
      get_decoding_key ops (some c) now f kid
        = (.error (.keyNotFound kid), some c, false)) := by
  refine ⟨⟨rfl, ?_⟩, ?_, ?_⟩
  · intro h2
    have hst : (get_jwks none t1 (.ok jwks)).2.1
        = some (CachedJwks.new jwks.keys t1) := rfl
    rw [hst]
    have hfr : (CachedJwks.new jwks.keys t1).is_expired t2 = false := by
      simp only [CachedJwks.new, CachedJwks.is_expired]
      simp only [decide_eq_false_iff_not, not_lt]
      exact h2
    simp [get_jwks, hfr]
  · intro hexp
    refine ⟨?_, ?_⟩
    · rcases f <;> simp [get_jwks, hexp]
    · intro hf
      subst hf
      simp [get_jwks, hexp]
  · intro hfresh hmiss
    simp [get_decoding_key, get_jwks, hfresh, hmiss]

/-- Witness for jwks_cache_ttl: a fetch at time 5 fills the cache and a
lookup at time 100 is answered from it with no fetch, even though the
network is down. -/
theorem jwks_cache_ttl_witness :
    get_jwks (get_jwks none 5 (.ok ⟨[]⟩)).2.1 100 (.error "down")
      = (.ok (CachedJwks.new [] 5), (get_jwks none 5 (.ok ⟨[]⟩)).2.1, false) := by
  have h := jwks_cache_ttl sampleKeyOps 5 100 0 ⟨[]⟩ (.error "down")
    (.error "x") ⟨[], 0⟩ "k"
  exact h.1.2 (by decide)

/-- Claim C2: with expiry validation enabled and clock-skew tolerance skew, a
token of either family whose claims carry exp fails with an expired error
exactly when now > exp + skew (equivalently, exp < now − skew over the
integers); when the expiry check passes, it fails with an issued-in-future
error exactly when iat > now + skew, and a token passing both checks
validates successfully. -/
theorem expiry_freshness_clock_skew (config : TokenValidationConfig)
    (now e i : Nat)
    (hval : config.validate_expiration = true)
    (hiat : config.validate_issued_at = true) :
    ((now > e + config.clock_skew_seconds) ↔
      ((e : Int) < (now : Int) - (config.clock_skew_seconds : Int))) ∧
    (∀ (ops : CryptoOps) (token key pt hi : String) (claims : TokenClaims),
      config.jwe_decryption_key = some key →
      (rustSplit '.' token).length = 5 →
      ops.decode_jwe_header ((rustSplit '.' token).headD "") = .ok ⟨"dir", "A256GCM", hi⟩ →
      ops.decrypt_jwe key token = .ok pt →
      ops.parse_claims pt = .ok claims →
      claims.iss = config.expected_issuer →
      claims.exp = some e → claims.iat = some i →
      ((failsWith (validate_jwe_token ops token config now) isExpiredError = true ↔
        now > e + config.clock_skew_seconds) ∧
      (now ≤ e + config.clock_skew_seconds →
        (failsWith (validate_jwe_token ops token config now) isIssuedInFutureError = true ↔
          i > now + config.clock_skew_seconds)) ∧
      (now ≤ e + config.clock_skew_seconds → i ≤ now + config.clock_skew_seconds →
        validate_jwe_token ops token config now = .ok claims))) ∧
    (∀ (ops : CryptoOps) (token kid s : String)
      (lookup : String → Except String DecodingKey) (key : DecodingKey)
      (p : JwtPayload),
      config.jwks_manager = some lookup →
      ops.decode_jwt_header token = .ok ⟨"RS256", some kid⟩ →
      lookup kid = .ok key →
      ops.verify_signature key token = true →
      ops.parse_jwt_payload token = .ok p →
      p.iss = some config.expected_issuer →
      p.aud = some config.expected_audience →
      p.exp = some e → p.iat = some i → p.sub = some s →
      ((failsWith (validate_jwt_token ops token config now) isExpiredError = true ↔
        now > e + config.clock_skew_seconds) ∧
      (now ≤ e + config.clock_skew_seconds →
        (failsWith (validate_jwt_token ops token config now) isIssuedInFutureError = true ↔
          i > now + config.clock_skew_seconds)) ∧
      (now ≤ e + config.clock_skew_seconds → i ≤ now + config.clock_skew_seconds →
        validate_jwt_token ops token config now
          = .ok ⟨config.expected_issuer, p.aud, p.exp, p.iat, p.sub⟩))) := by
  refine ⟨by omega, ?_, ?_⟩
  · intro ops token key pt hi claims hkey hparts hhdr hdec hparse hciss hcexp hciat
    simp only [List.headD_eq_head?] at hhdr
    have hred : validate_jwe_token ops token config now =
        (match check_expiration config (some e) now with
         | .error err => .error err
         | .ok _ =>
           match check_issued_at config (some i) now with
           | .error err => .error err
           | .ok _ => .ok claims) := by
      simp [validate_jwe_token, hparts, hhdr, hkey, hdec, hparse, hciss,
        hcexp, hciat]
    by_cases hgt : now > e + config.clock_skew_seconds
    · refine ⟨by simp [hred, check_expiration, hval, hgt, failsWith, isExpiredError],
        fun hle => absurd hgt (by omega), fun hle _ => absurd hgt (by omega)⟩
    · have hok : check_expiration config (some e) now = .ok () := by
        simp [check_expiration, hval, hgt]
      by_cases higt : i > now + config.clock_skew_seconds
      · refine ⟨?_, ?_, fun _ hile => absurd higt (by omega)⟩
        · simp [hred, hok, check_issued_at, hiat, higt, failsWith,
            isExpiredError, hgt]
        · intro _
          simp [hred, hok, check_issued_at, hiat, higt, failsWith,
            isIssuedInFutureError]
      · have hok2 : check_issued_at config (some i) now = .ok () := by
          simp [check_issued_at, hiat, higt]
        refine ⟨?_, ?_, fun _ _ => by simp [hred, hok, hok2]⟩
        · simp [hred, hok, hok2, failsWith, isExpiredError, hgt]
        · intro _
          simp [hred, hok, hok2, failsWith, isIssuedInFutureError, higt]
  · intro ops token kid s lookup key p hjm hhdr hl hsig hp hpiss hpaud hpexp hpiat hpsub
    have hclaims : jwtValidateClaims p (mkValidation config) now =
        (if e < now - config.clock_skew_seconds then .error .expiredSignature
         else .ok ⟨config.expected_issuer, p.aud, p.exp, p.iat, p.sub⟩) := by
      simp [jwtValidateClaims, mkValidation, JwtPayload.hasClaim, hpiss,
        hpaud, hpexp, hpiat, hpsub]
    by_cases hgt : now > e + config.clock_skew_seconds
    · have hlt : e < now - config.clock_skew_seconds := by omega
      have hred : validate_jwt_token ops token config now
          = .error (.jwtDecodeFailed .expiredSignature) := by
        simp [validate_jwt_token, hhdr, hjm, hl, jwtDecode, hsig, hp,
          hclaims, hlt]
      refine ⟨by simp [hred, failsWith, isExpiredError, hgt],
        fun hle => absurd hgt (by omega), fun hle _ => absurd hgt (by omega)⟩
    · have hnlt : ¬ e < now - config.clock_skew_seconds := by omega
      have hred : validate_jwt_token ops token config now =
          (match check_expiration config p.exp now with
           | .error err => .error err
           | .ok _ =>
             match check_issued_at config p.iat now with
             | .error err => .error err
             | .ok _ => .ok ⟨config.expected_issuer, p.aud, p.exp, p.iat, p.sub⟩) := by
        simp [validate_jwt_token, hhdr, hjm, hl, jwtDecode, hsig, hp,
          hclaims, hnlt]
      have hok : check_expiration config p.exp now = .ok () := by
        simp [check_expiration, hval, hpexp, hgt]
      by_cases higt : i > now + config.clock_skew_seconds
      · refine ⟨?_, ?_, fun _ hile => absurd higt (by omega)⟩
        · simp [hred, hok, check_issued_at, hiat, hpiat, higt, failsWith,
            isExpiredError, hgt]
        · intro _
          simp [hred, hok, check_issued_at, hiat, hpiat, higt, failsWith,
            isIssuedInFutureError]
      · have hok2 : check_issued_at config p.iat now = .ok () := by
          simp [check_issued_at, hiat, hpiat, higt]
        refine ⟨?_, ?_, fun _ _ => by simp [hred, hok, hok2]⟩
        · simp [hred, hok, hok2, failsWith, isExpiredError, hgt]
        · intro _
          simp [hred, hok, hok2, failsWith, isIssuedInFutureError, higt]

/-- A crypto oracle for the expiry witness: decryption succeeds and the
decrypted claims expire at 100 with issued-at 50. -/
def c2Ops : CryptoOps :=
  ⟨fun _ => .ok ⟨"dir", "A256GCM", "x"⟩,
   fun _ _ => .ok "pt",
   fun _ => .ok ⟨"iss0", none, some 100, some 50, none⟩,
   fun _ => .ok ⟨"RS256", some "kid0"⟩,
   fun s => .ok (.rsaPem s),
   fun s => .ok (.ecPem s),
   fun _ _ => true,
   fun _ => .ok ⟨some "iss0", some "aud0", some 100, some 50, some "sub0"⟩⟩

/-- A validation configuration with a decryption key configured. -/
def c2Config : TokenValidationConfig :=
  ⟨"iss0", "aud0", none, some "k", true, true, 300, none⟩

/-- Witness for expiry_freshness_clock_skew: at time 1000, a decrypted token
that expired at 100 under skew 300 fails with the expired error. -/
theorem expiry_freshness_clock_skew_witness :
    failsWith (validate_jwe_token c2Ops "a.b.c.d.e" c2Config 1000)
      isExpiredError = true := by
  have h := expiry_freshness_clock_skew c2Config 1000 100 50 rfl rfl
  exact (h.2.1 c2Ops "a.b.c.d.e" "k" "pt" "x"
    ⟨"iss0", none, some 100, some 50, none⟩
    rfl (by decide) rfl rfl rfl rfl rfl rfl).1.mpr (by decide)

/-- A request to the protected endpoint carrying no signals at all. -/
def mcpBareReq : HttpRequest :=
  ⟨"/mcp", none, none, none, none, none, none, none, none, none, none⟩

/-- A request to the liveness endpoint carrying no signals at all. -/
def healthBareReq : HttpRequest :=
  ⟨"/health", none, none, none, none, none, none, none, none, none, none⟩

/-- A request to the discovery endpoint carrying no signals at all. -/
def wellKnownBareReq : HttpRequest :=
  ⟨"/.well-known/oauth-protected-resource",
    none, none, none, none, none, none, none, none, none, none⟩

/-- A request to the protected endpoint carrying a five-segment bearer
token. -/
def mcpTokenReq : HttpRequest :=
  ⟨"/mcp", some "Bearer a.b.c.d.e",
    none, none, none, none, none, none, none, none, none⟩

/-- Claim C3 counterexample: with the rate limit exhausted and no bearer token
present, the request to the protected endpoint is rejected 401 by the
outermost auth middleware; the rate limiter never runs and the rate-limit
error is never produced — the admission gate is not applied before token
validation. -/
theorem rate_limit_not_before_auth_counterexample :
    build_app sampleOps sampleConfig 0 (fun _ => false) false mcpBareReq
      = ([], .unauthorized) ∧
    (build_app sampleOps sampleConfig 0 (fun _ => false) false mcpBareReq).2
      ≠ .tooManyRequests ∧
    Stage.rateLimiter ∉
      (build_app sampleOps sampleConfig 0 (fun _ => false) false mcpBareReq).1 := by
  refine ⟨by decide, by decide, by decide⟩

/-- Claim C3 amended: the bearer-auth middleware is installed outside the rate
limiter, so token validation runs first on the protected endpoint: a request
with no token is rejected 401 with the limiter never consulted, an invalid
token is rejected 401 after validation with the limiter never consulted,
and only a request with a valid token reaches the limiter, which rejects it
with the rate-limit error when over capacity and forwards it to the routes
otherwise. -/
theorem auth_middleware_runs_before_rate_limit (ops : CryptoOps)
    (config : TokenValidationConfig) (now : Nat) (allow : String → Bool)
    (req : HttpRequest)
    (hw : rustStartsWith req.path "/.well-known/" = false)
    (hh : req.path ≠ "/health") :
    (req.authorization.bind (fun h => rustStripPfx "Bearer " h) = none →
      build_app ops config now allow false req = ([], .unauthorized)) ∧
    (∀ token err,
      req.authorization.bind (fun h => rustStripPfx "Bearer " h) = some token →
      validate_bearer_token ops token config now = .error err →
      build_app ops config now allow false req
        = ([.tokenValidator], .unauthorized)) ∧
    (∀ token claims,
      req.authorization.bind (fun h => rustStripPfx "Bearer " h) = some token →
      validate_bearer_token ops token config now = .ok claims →
      (allow (robust_ip_key req) = false →
        build_app ops config now allow false req
          = ([.tokenValidator, .rateLimiter], .tooManyRequests)) ∧
      (allow (robust_ip_key req) = true →
        build_app ops config now allow false req
          = (.tokenValidator :: .rateLimiter :: (inner_router req).1,
             (inner_router req).2))) := by
  refine ⟨?_, ?_, ?_⟩
  · intro hnone
    simp [build_app, layer, require_bearer_auth, hw, hh, hnone]
  · intro token err htok hbad
    simp [build_app, layer, require_bearer_auth, hw, hh, htok, hbad]
  · intro token claims htok hok
    constructor <;> intro hallow <;>
      simp [build_app, layer, require_bearer_auth, rate_limit_layer,
        trace_layer, hw, hh, htok, hok, hallow]

/-- Witness for auth_middleware_runs_before_rate_limit: a valid bearer token
on an over-capacity request is validated first and then rejected with the
rate-limit error. -/
theorem auth_middleware_runs_before_rate_limit_witness :
    build_app sampleOps sampleConfig 0 (fun _ => false) false mcpTokenReq
      = ([.tokenValidator, .rateLimiter], .tooManyRequests) := by
  have h := auth_middleware_runs_before_rate_limit sampleOps sampleConfig 0
    (fun _ => false) mcpTokenReq (by decide) (by decide)
  exact (h.2.2 "a.b.c.d.e" ⟨"iss0", none, none, none, none⟩ rfl rfl).1 rfl

/-- No route of the inner router runs the token validator or the rate
limiter, and none produces the 401 response. -/
theorem inner_router_stages (req : HttpRequest) :
    Stage.tokenValidator ∉ (inner_router req).1 ∧
    Stage.rateLimiter ∉ (inner_router req).1 ∧
    (inner_router req).2 ≠ .unauthorized := by
  unfold inner_router
  split_ifs <;> simp

/-- Claim C4 counterexample: with the rate limit exhausted, the liveness request
is rejected with the rate-limit error, and with capacity available the
limiter stage still runs on it — the liveness endpoint does not bypass the
rate limiter (and likewise for the discovery endpoint); only token
validation is bypassed. -/
theorem health_not_rate_limit_exempt_counterexample :
    build_app sampleOps sampleConfig 0 (fun _ => false) false healthBareReq
      = ([.rateLimiter], .tooManyRequests) ∧
    build_app sampleOps sampleConfig 0 (fun _ => true) false healthBareReq
      = ([.rateLimiter, .handler "/health"], .ok "OK") ∧
    build_app sampleOps sampleConfig 0 (fun _ => false) false wellKnownBareReq
      = ([.rateLimiter], .tooManyRequests) := by
  refine ⟨by decide, by decide, by decide⟩

/-- Claim C4 amended: in network mode the discovery and liveness endpoints bypass
bearer-token validation only — the auth middleware forwards them without
validating and they are never rejected 401 — while the rate limiter is
installed over the whole router and still applies to them. -/
theorem exempt_paths_bypass_auth_only (ops : CryptoOps)
    (config : TokenValidationConfig) (now : Nat) (allow : String → Bool)
    (req : HttpRequest)
    (hpath : rustStartsWith req.path "/.well-known/" = true ∨ req.path = "/health") :
    Stage.tokenValidator ∉ (build_app ops config now allow false req).1 ∧
    (build_app ops config now allow false req).2 ≠ .unauthorized ∧
    (allow (robust_ip_key req) = false →
      build_app ops config now allow false req
        = ([.rateLimiter], .tooManyRequests)) ∧
    (allow (robust_ip_key req) = true →
      build_app ops config now allow false req
        = (.rateLimiter :: (inner_router req).1, (inner_router req).2)) := by
  have hnext : build_app ops config now allow false req
      = rate_limit_layer allow inner_router req := by
    rcases hpath with hw | hh
    · simp [build_app, layer, require_bearer_auth, trace_layer, hw]
    · simp [build_app, layer, require_bearer_auth, trace_layer, hh]
  rcases hallow : allow (robust_ip_key req) with _ | _
  · rw [hnext]
    simp [rate_limit_layer, hallow]
  · rw [hnext]
    simp only [rate_limit_layer, hallow, if_pos]
    have hir := inner_router_stages req
    simp [hir.1, hir.2.2]

/-- Witness for exempt_paths_bypass_auth_only: the discovery request with
capacity available passes the limiter and reaches its handler, with no
token validation. -/
theorem exempt_paths_bypass_auth_only_witness :
    build_app sampleOps sampleConfig 0 (fun _ => true) false wellKnownBareReq
      = ([.rateLimiter, .handler "/.well-known/oauth-protected-resource"],
         .ok "auth-server-metadata") := by
  have h := exempt_paths_bypass_auth_only sampleOps sampleConfig 0
    (fun _ => true) wellKnownBareReq (Or.inl (by decide))
  exact (h.2.2.2 rfl).trans (by decide)

/-- A request whose Authorization value is the bare Bearer scheme, alongside
a proxy header and a peer address. -/
def emptyBearerReq : HttpRequest :=
  ⟨"/mcp", some "Bearer ", none, some "9.9.9.9",
    none, none, none, none, none, none, some "1.2.3.4"⟩

/-- Claim C8 counterexample: an Authorization value of exactly the Bearer scheme
makes the extractor return the empty string as the identity — the produced
identity is not non-empty, and neither the X-Real-IP header nor the peer
address present on the same request is consulted, although the claim would
have an empty bearer token fall through to them. -/
theorem identity_extraction_empty_counterexample :
    robust_ip_key emptyBearerReq = "" ∧
    robust_ip_key emptyBearerReq ≠ "9.9.9.9" ∧
    robust_ip_key emptyBearerReq ≠ "1.2.3.4" := by
  refine ⟨by decide, by decide, by decide⟩

/-- Claim C8 amended: identity extraction is deterministic and total — a single
identity string is produced for every request — but the string can be
empty: whenever the Authorization value carries the Bearer scheme, its
whitespace-trimmed token (even when the trimmed token is empty) is the
identity, overriding all nine header-based sources and the transport peer
address; with no signal source present the identity is the fixed string
used as the fallback key. -/
theorem identity_extraction_precedence (req : HttpRequest) :
    (∀ h tok, req.authorization = some h →
      rustStripPfx "Bearer " h = some tok →
      robust_ip_key req = rustTrim tok) ∧
    (req.authorization = none → req.x_forwarded_for = none →
      req.x_real_ip = none → req.x_client_ip = none →
      req.cf_connecting_ip = none → req.true_client_ip = none →
      req.x_originating_ip = none → req.x_remote_ip = none →
      req.x_remote_addr = none → req.peer_addr = none →
      robust_ip_key req = "unknown") := by
  constructor
  · intro h tok ha hs
    simp [robust_ip_key, ha, hs, Option.orElse]
  · intro h1 h2 h3 h4 h5 h6 h7 h8 h9 h10
    simp [robust_ip_key, h1, h2, h3, h4, h5, h6, h7, h8, h9, h10, Option.orElse]

/-- Witness for identity_extraction_precedence: a bearer token with inner
whitespace is used trimmed, overriding the other sources. -/
theorem identity_extraction_precedence_witness :
    robust_ip_key ⟨"/mcp", some "Bearer  abc ", none, some "9.9.9.9",
      none, none, none, none, none, none, some "1.2.3.4"⟩ = "abc" := by
  have h := identity_extraction_precedence ⟨"/mcp", some "Bearer  abc ",
    none, some "9.9.9.9", none, none, none, none, none, none, some "1.2.3.4"⟩
  exact (h.1 "Bearer  abc " " abc " rfl (by decide)).trans (by decide)

/-- Claim C9: startup-configured restrictions govern connect and select-namespace:
a request naming a namespace different from the fixed one is rejected with
the session connection state unchanged, the fixed namespace passes the
check, and a connect omitting the namespace is accepted with the configured
value supplied to the new connection; the endpoint and database
restrictions behave the same way. -/
theorem startup_restriction_enforcement (svc : SurrealService)
    (conn : Option DbConn) (p : ConnectParams)
    (create : String → Option String → Option String → Option String →
      Option String → Except String DbConn)
    (uop : DbConn → String → Except String Unit)
    (cns : String) (hns : svc.ns = some cns) :
    (∀ n, n ≠ cns →
      use_namespace svc conn n uop
        = (.error (.namespaceRestricted n cns), conn)) ∧
    (∀ db, conn = some db → uop db cns = .ok () →
      use_namespace svc conn cns uop
        = (.ok ("Successfully switched to namespace " ++ cns), some db)) ∧
    (svc.endpoint.any (fun c => p.endpoint != c) = false →
      ∀ n, p.ns = some n → n ≠ cns →
      connect_endpoint svc conn p create
        = (.error (.namespaceRestricted n cns), conn)) ∧
    (svc.endpoint.any (fun c => p.endpoint != c) = false →
      svc.database.any (fun c => p.database.any (fun d => d != c)) = false →
      (p.ns = none ∨ p.ns = some cns) →
      (p.ns = none → p.ns.orElse (fun _ => svc.ns) = some cns) ∧
      ∀ inst, create p.endpoint (p.username.orElse (fun _ => svc.user))
          (p.password.orElse (fun _ => svc.pass))
          (p.ns.orElse (fun _ => svc.ns))
          (p.database.orElse (fun _ => svc.database)) = .ok inst →
        connect_endpoint svc conn p create
          = (.ok ("Successfully connected to endpoint " ++ p.endpoint),
             some inst)) ∧
    (∀ ce, svc.endpoint = some ce → p.endpoint ≠ ce →
      connect_endpoint svc conn p create
        = (.error (.endpointRestricted p.endpoint ce), conn)) ∧
    (svc.endpoint.any (fun c => p.endpoint != c) = false →
      ∀ cd d, svc.database = some cd → p.database = some d → d ≠ cd →
      (p.ns = none ∨ p.ns = some cns) →
      connect_endpoint svc conn p create
        = (.error (.databaseRestricted d cd), conn)) := by
  refine ⟨?_, ?_, ?_, ?_, ?_, ?_⟩
  · intro n hB
    simp [use_namespace, hns, hB]
  · intro db hc hu
    subst hc
    simp [use_namespace, hns, hu]
  · intro hep n hpn hB
    simp [connect_endpoint, hep, hns, hpn, hB]
  · intro hep hdb hcase
    have hnsok : svc.ns.any (fun c => p.ns.any (fun n => n != c)) = false := by
      rcases hcase with hc | hc <;> simp [hns, hc]
    refine ⟨fun hnone => by simp [hnone, hns], fun inst hcreate => ?_⟩
    simp [connect_endpoint, hep, hnsok, hdb, hcreate]
  · intro ce hce hB
    simp [connect_endpoint, hce, hB]
  · intro hep cd d hcd hpd hB hcase
    have hnsok : svc.ns.any (fun c => p.ns.any (fun n => n != c)) = false := by
      rcases hcase with hc | hc <;> simp [hns, hc]
    simp [connect_endpoint, hep, hnsok, hcd, hpd, hB]

/-- A service started with the namespace fixed to prod and nothing else
restricted. -/
def prodSvc : SurrealService := ⟨none, some "prod", none, none, none⟩

/-- Witness for startup_restriction_enforcement: with the namespace fixed to
prod, selecting dev is rejected and the (absent) connection is unchanged. -/
theorem startup_restriction_enforcement_witness :
    use_namespace prodSvc none "dev" (fun _ _ => .ok ())
      = (.error (.namespaceRestricted "dev" "prod"), none) := by
  have h := startup_restriction_enforcement prodSvc none
    ⟨"e", none, none, none, none⟩ (fun ep u pa n d => .ok ⟨ep, u, pa, n, d⟩)
    (fun _ _ => .ok ()) "prod" rfl
  exact h.1 "dev" (by decide)

/-- A validation configuration with a JWKS lookup, for the signed path. -/
def jwksConfig : TokenValidationConfig :=
  ⟨"iss0", "aud0", none, none, true, true, 300,
    some (fun _ => .ok (.secret "k"))⟩

/-- A crypto oracle whose signed-token payload lacks the iat claim but
carries valid iss, aud, exp and sub. -/
def noIatOps : CryptoOps :=
  ⟨fun _ => .ok ⟨"dir", "A256GCM", "x"⟩,
   fun _ _ => .ok "pt",
   fun _ => .ok ⟨"iss0", none, some 100, some 50, none⟩,
   fun _ => .ok ⟨"RS256", some "kid0"⟩,
   fun s => .ok (.rsaPem s),
   fun s => .ok (.ecPem s),
   fun _ _ => true,
   fun _ => .ok ⟨some "iss0", some "aud0", some 100, none, some "sub0"⟩⟩

/-- A crypto oracle whose signed-token payload lacks the sub claim but
carries valid iss, aud, exp and iat. -/
def noSubOps : CryptoOps :=
  ⟨fun _ => .ok ⟨"dir", "A256GCM", "x"⟩,
   fun _ _ => .ok "pt",
   fun _ => .ok ⟨"iss0", none, some 100, some 50, none⟩,
   fun _ => .ok ⟨"RS256", some "kid0"⟩,
   fun s => .ok (.rsaPem s),
   fun s => .ok (.ecPem s),
   fun _ _ => true,
   fun _ => .ok ⟨some "iss0", some "aud0", some 100, some 50, none⟩⟩

/-- Claim C10 counterexample: a signed token whose payload lacks the iat
claim but carries a valid signature, issuer, audience, expiry and subject
passes validation — the library required-claims loop skips the iat name, so
validation does not require the payload to contain iat, refuting the
claimed all-five requirement. -/
theorem jwt_missing_iat_passes_counterexample :
    validate_jwt_token noIatOps "a.b.c" jwksConfig 120
      = .ok ⟨"iss0", some "aud0", some 100, none, some "sub0"⟩ := rfl

/-- Claim C10 amended: the signed path names iss, aud, exp, iat and sub as
required spec claims, but the library presence check covers only iss, aud,
exp and sub and skips iat: a payload lacking one of those four checkable
claims (the earlier checkable claims being present) fails with the
missing-required-claim error for that claim — in particular a token lacking
the subject, which the data model declares optional, fails even when its
signature, issuer, audience, expiry and freshness are all valid — while a
token lacking only iat passes validation. -/
theorem jwt_required_claims_enforcement (ops : CryptoOps)
    (config : TokenValidationConfig) (now : Nat) (token kid : String)
    (lookup : String → Except String DecodingKey) (key : DecodingKey)
    (hdr : JwtHeader) (p : JwtPayload) (e : Nat) (s : String)
    (hjm : config.jwks_manager = some lookup)
    (hhdr : ops.decode_jwt_header token = .ok hdr)
    (hkid : hdr.kid = some kid)
    (hl : lookup kid = .ok key)
    (hsig : ops.verify_signature key token = true)
    (hp : ops.parse_jwt_payload token = .ok p) :
    (p.iss = none →
      validate_jwt_token ops token config now
        = .error (.jwtDecodeFailed (.missingRequiredClaim "iss"))) ∧
    (p.iss.isSome = true → p.aud = none →
      validate_jwt_token ops token config now
        = .error (.jwtDecodeFailed (.missingRequiredClaim "aud"))) ∧
    (p.iss.isSome = true → p.aud.isSome = true → p.exp = none →
      validate_jwt_token ops token config now
        = .error (.jwtDecodeFailed (.missingRequiredClaim "exp"))) ∧
    (p.iss.isSome = true → p.aud.isSome = true → p.exp.isSome = true →
      p.sub = none →
      validate_jwt_token ops token config now
        = .error (.jwtDecodeFailed (.missingRequiredClaim "sub"))) ∧
    (p.iss = some config.expected_issuer →
      p.aud = some config.expected_audience →
      p.exp = some e → p.iat = none → p.sub = some s →
      now ≤ e + config.clock_skew_seconds →
      validate_jwt_token ops token config now
        = .ok ⟨config.expected_issuer, p.aud, p.exp, none, p.sub⟩) := by
  refine ⟨?_, ?_, ?_, ?_, ?_⟩
  · intro hiss
    simp [validate_jwt_token, hhdr, hkid, hjm, hl, jwtDecode, hsig, hp,
      jwtValidateClaims, mkValidation, JwtPayload.hasClaim, hiss]
  · intro hiss haud
    simp [validate_jwt_token, hhdr, hkid, hjm, hl, jwtDecode, hsig, hp,
      jwtValidateClaims, mkValidation, JwtPayload.hasClaim, hiss, haud]
  · intro hiss haud hexp
    simp [validate_jwt_token, hhdr, hkid, hjm, hl, jwtDecode, hsig, hp,
      jwtValidateClaims, mkValidation, JwtPayload.hasClaim, hiss, haud, hexp]
  · intro hiss haud hexp hsub
    simp [validate_jwt_token, hhdr, hkid, hjm, hl, jwtDecode, hsig, hp,
      jwtValidateClaims, mkValidation, JwtPayload.hasClaim, hiss, haud,
      hexp, hsub]
  · intro hiss haud hexp hiat hsub hfresh
    have hnlt : ¬ e < now - config.clock_skew_seconds := by omega
    have hce : check_expiration config (some e) now = .ok () := by
      rcases hvc : config.validate_expiration <;>
        simp [check_expiration, hvc] <;> omega
    have hci : check_issued_at config (none : Option Nat) now = .ok () := by
      rcases hvi : config.validate_issued_at <;>
        simp [check_issued_at, hvi]
    simp [validate_jwt_token, hhdr, hkid, hjm, hl, jwtDecode, hsig, hp,
      jwtValidateClaims, mkValidation, JwtPayload.hasClaim, hiss, haud,
      hexp, hiat, hsub, hnlt, hce, hci]

/-- Witness for jwt_required_claims_enforcement: a concrete signed token
with a valid signature and all other claims valid but no subject is
rejected with the missing-required-claim error for sub. -/
theorem jwt_required_claims_enforcement_witness :
    validate_jwt_token noSubOps "a.b.c" jwksConfig 120
      = .error (.jwtDecodeFailed (.missingRequiredClaim "sub")) := by
  exact (jwt_required_claims_enforcement noSubOps jwksConfig 120 "a.b.c"
    "kid0" _ (.secret "k") ⟨"RS256", some "kid0"⟩
    ⟨some "iss0", some "aud0", some 100, some 50, none⟩ 100 "s"
    rfl rfl rfl rfl rfl rfl).2.2.2.1 rfl rfl rfl rfl

end SurrealMcp
